import Mathlib

/-!
Shallow embedding of the fog-of-war core of
`src/01-fog-of-war/tank_king/objects.py` (WeeklyChallenges):

* `LightGlow` — the radial glow-mask generator (`__init__` lines 148-164,
  `update_glow` lines 170-178);
* `DarkOverlay` — the decaying fog-memory grid and the compositing step
  (`__init__` lines 182-186, `draw` lines 188-207).

Numeric conventions of the embedding:

* Python floats are embedded as exact rationals (`ℚ`); all quantities the
  program manipulates stay well within the exactly-representable range and
  the decay arithmetic (`- 0.1`, clamps) is modelled exactly as `- 1/10`.
* Python ints are embedded as `ℤ`.
* A `pygame.Surface` is embedded as its size together with a per-pixel
  greyscale value; every colour the program draws is grey `(k, k, k)`, so a
  single channel suffices.  A pixel of an `SRCALPHA` surface that was never
  painted is transparent, embedded as `none`.
* `pygame.draw.circle` with default width paints the filled disc of the
  given radius (clipped to the surface bounds, painting nothing when the
  radius is not positive); this idealises the rasteriser's boundary pixels.
-/

namespace FogOfWar

/-- Modelled from the spec: `utils.clamp` (a repository file that is not under
`src/`) clamps a value to the interval `[mini, maxi]` ("clamp to [0,255]",
"clamp to the floor [25, 255]"). -/
def clamp {α : Type} [LinearOrder α] (value mini maxi : α) : α :=
  min (max value mini) maxi

/-- Modelled from the spec: `utils.distance` (a repository file that is not
under `src/`) is the Euclidean distance between two points.  The only use in
the source is the guard `distance(center, pos) < self.light.radius`; it is
embedded as the equivalent comparison of squares `distSq center pos < radius²`
(equivalent whenever the radius is nonnegative, and the program only ever
constructs the radius 125). -/
def distSq (a b : ℚ × ℚ) : ℚ :=
  (a.1 - b.1) ^ 2 + (a.2 - b.2) ^ 2

/-- Python `int()` applied to a float: truncation toward zero. -/
def pyint (q : ℚ) : ℤ :=
  if 0 ≤ q then ⌊q⌋ else -⌊-q⌋

/-- objects.py lines 193-196, the decay part of one cell of
`DarkOverlay.draw`: `if k > 0: k -= 0.1; self.grid[row][col] = clamp(k, 25, 255)`.
Returns the cell's grid value after the decay (unchanged when it was `≤ 0`). -/
def decayStep (v : ℚ) : ℚ :=
  if 0 < v then clamp (v - 1 / 10) 25 255 else v

/-- objects.py lines 193-205, the whole per-cell body of the loop in
`DarkOverlay.draw` for a cell with world-space centre `center`, light position
`pos`, light radius `radius` and glow counter `glow`, starting from grid value
`v`.  Returns `(new grid value, greyscale value drawn for the cell)`:
decay first (lines 193-196), then `k = int(grid[row][col])` (line 197), then
the reveal override inside the light radius (lines 199-203: the grid gets the
constant `color = 55` while the drawn value gets `55 - (11 - glow) * 2`), and
finally `k = clamp(k, 0, 255)` (line 204) for the drawn value. -/
def cellUpdate (glow radius : ℤ) (center pos : ℚ × ℚ) (v : ℚ) : ℚ × ℤ :=
  let v1 := decayStep v
  if distSq center pos < (radius : ℚ) ^ 2 then
    (55, clamp (55 - (11 - glow) * 2) 0 255)
  else
    (v1, clamp (pyint v1) 0 255)

/-- The grid value of one fog cell after a sequence of `DarkOverlay.draw`
calls, the light being at position `ps[i]` during the `i`-th call. -/
def gridCellRun (glow radius : ℤ) (center : ℚ × ℚ) (ps : List (ℚ × ℚ)) (v : ℚ) : ℚ :=
  ps.foldl (fun w pos => (cellUpdate glow radius center pos w).1) v

/- ------------------------------------------------------------------ -/
/- Surfaces and the LightGlow mask generator.                          -/
/- ------------------------------------------------------------------ -/

/-- A `pygame.Surface`: its size and a per-pixel greyscale value.  Every
colour the program draws is grey `(k, k, k)`, so one channel suffices; a
pixel of an `SRCALPHA` surface that was never painted is `none`. -/
structure Surface where
  w : ℤ
  h : ℤ
  px : ℤ × ℤ → Option ℤ

/-- A freshly created `pygame.Surface((w, h), pygame.SRCALPHA)`: fully
transparent. -/
def Surface.blank (w h : ℤ) : Surface :=
  ⟨w, h, fun _ => none⟩

/-- The set of pixels painted by `pygame.draw.circle` (default width, i.e.
a filled disc) of radius `rad` centred at `c` on a `w × h` surface: the pixel
must lie on the surface, the radius must be positive, and the pixel must lie
in the closed disc. -/
def covers (w h : ℤ) (c : ℤ × ℤ) (rad : ℤ) (p : ℤ × ℤ) : Prop :=
  (0 ≤ p.1 ∧ p.1 < w ∧ 0 ≤ p.2 ∧ p.2 < h) ∧ 0 < rad ∧
    (p.1 - c.1) ^ 2 + (p.2 - c.2) ^ 2 ≤ rad ^ 2

instance (w h : ℤ) (c : ℤ × ℤ) (rad : ℤ) (p : ℤ × ℤ) : Decidable (covers w h c rad p) :=
  inferInstanceAs (Decidable ((0 ≤ p.1 ∧ p.1 < w ∧ 0 ≤ p.2 ∧ p.2 < h) ∧ 0 < rad ∧
    (p.1 - c.1) ^ 2 + (p.2 - c.2) ^ 2 ≤ rad ^ 2))

/-- `pygame.draw.circle(surf, (col, col, col), c, rad)`: paints the filled
disc over the surface, leaving every other pixel as it was. -/
def drawCircle (s : Surface) (col : ℤ) (c : ℤ × ℤ) (rad : ℤ) : Surface :=
  ⟨s.w, s.h, fun p => if covers s.w s.h c rad p then some col else s.px p⟩

/-- Painting a sequence of discs (colour `colF i`, radius `radF i`, common
centre `c`) over a surface, in order.  Both ring loops of `LightGlow` are
instances of this fold. -/
def ringFold (colF radF : ℕ → ℤ) (c : ℤ × ℤ) (s : Surface) (l : List ℕ) : Surface :=
  l.foldl (fun t i => drawCircle t (colF i) c (radF i)) s

/-- objects.py lines 150-160, the surface built by the loop in
`LightGlow.__init__`: 25 layers, `self.glow = 11`, ring `i` has colour
`clamp(i * 11, 0, 255)` and radius `radius - i * 5`, drawn on a transparent
`(radius*2) × (radius*2)` surface centred at `surf.get_rect().center =
(radius, radius)`. -/
def LightGlow.initSurf (radius : ℤ) : Surface :=
  (List.range 25).foldl
    (fun s i => drawCircle s (clamp ((i : ℤ) * 11) 0 255) (radius, radius)
      (radius - (i : ℤ) * 5))
    (Surface.blank (radius * 2) (radius * 2))

/-- objects.py lines 172-178, the surface rebuilt by `LightGlow.update_glow`
for a given (already clamped) glow counter: 25 layers, ring `i` has colour
`clamp(i * glow, 0, 255)` and radius `radius - i * 3`. -/
def LightGlow.glowSurf (radius glow : ℤ) : Surface :=
  (List.range 25).foldl
    (fun s i => drawCircle s (clamp ((i : ℤ) * glow) 0 255) (radius, radius)
      (radius - (i : ℤ) * 3))
    (Surface.blank (radius * 2) (radius * 2))

/-- The state of a `LightGlow` object: `self.radius`, `self.glow`,
`self.surf`.  The blink fields (lines 162-164) hold wall-clock time and are
unused by every operation embedded here. -/
structure LightGlowState where
  radius : ℤ
  glow : ℤ
  surf : Surface

/-- objects.py lines 170-178, `LightGlow.update_glow`: increment `self.glow`,
clamp it to [0, 255] (line 174, before it is used by the ring loop), and
rebuild `self.surf` with ring step 3. -/
def LightGlow.updateGlow (s : LightGlowState) : LightGlowState :=
  let g := clamp (s.glow + 1) 0 255
  ⟨s.radius, g, LightGlow.glowSurf s.radius g⟩

/-- objects.py lines 148-164, `LightGlow.__init__` (blink fields aside):
`self.glow = 11`, the ring-step-5 surface is built, then `self.update_glow()`
immediately replaces it. -/
def LightGlow.init (radius : ℤ) : LightGlowState :=
  LightGlow.updateGlow ⟨radius, 11, LightGlow.initSurf radius⟩

/- ------------------------------------------------------------------ -/
/- Blitting and the DarkOverlay grid.                                  -/
/- ------------------------------------------------------------------ -/

/-- The pixels affected by `dest.blit(src, o)`: those on `dest` whose
translate by `-o` lies on `src`. -/
def blitArea (dest src : Surface) (o p : ℤ × ℤ) : Prop :=
  (0 ≤ p.1 ∧ p.1 < dest.w ∧ 0 ≤ p.2 ∧ p.2 < dest.h) ∧
    (0 ≤ p.1 - o.1 ∧ p.1 - o.1 < src.w ∧ 0 ≤ p.2 - o.2 ∧ p.2 - o.2 < src.h)

instance (dest src : Surface) (o p : ℤ × ℤ) : Decidable (blitArea dest src o p) :=
  inferInstanceAs (Decidable ((0 ≤ p.1 ∧ p.1 < dest.w ∧ 0 ≤ p.2 ∧ p.2 < dest.h) ∧
    (0 ≤ p.1 - o.1 ∧ p.1 - o.1 < src.w ∧ 0 ≤ p.2 - o.2 ∧ p.2 - o.2 < src.h)))

/-- One colour channel of pygame's `BLEND_RGBA_MULT` blend as the spec
describes it (§4.4: multiply per channel, scaled to [0,1]): `d·s/255` on
integer channel values.  The blend itself is pygame-internal (an external
library), so it is embedded from this documented semantics. -/
def multChan (d s : ℤ) : ℤ :=
  d * s / 255

/-- `dest.blit(src, o, special_flags=pygame.BLEND_RGBA_MAX)`: on the blit
area take the per-channel maximum (a transparent source pixel contributes
channel value 0, leaving the destination unchanged); elsewhere the
destination is untouched. -/
def blitMax (dest src : Surface) (o : ℤ × ℤ) : Surface :=
  ⟨dest.w, dest.h, fun p =>
    if blitArea dest src o p then
      some (max ((dest.px p).getD 0) ((src.px (p.1 - o.1, p.2 - o.2)).getD 0))
    else dest.px p⟩

/-- `dest.blit(src, o, special_flags=pygame.BLEND_RGBA_MULT)`: on the blit
area multiply per channel (`multChan`); elsewhere the destination is
untouched. -/
def blitMult (dest src : Surface) (o : ℤ × ℤ) : Surface :=
  ⟨dest.w, dest.h, fun p =>
    if blitArea dest src o p then
      some (multChan ((dest.px p).getD 0) ((src.px (p.1 - o.1, p.2 - o.2)).getD 0))
    else dest.px p⟩

/-- objects.py lines 206-207, the compositing tail of `DarkOverlay.draw`:
first `self.surf.blit(self.light.surf, self.light.surf.get_rect(center=pos),
special_flags=pygame.BLEND_RGBA_MAX)` — the glow surface of size `2·radius`
is max-blended onto the darkness layer with its centre at the light position,
i.e. top-left `pos - (radius, radius)` — and then `surf.blit(self.surf,
(0, 0), special_flags=pygame.BLEND_RGBA_MULT)` multiplies the result onto the
scene frame. -/
def DarkOverlay.composite (screen darkness glowS : Surface) (radius : ℤ) (pos : ℤ × ℤ) : Surface :=
  blitMult screen (blitMax darkness glowS (pos.1 - radius, pos.2 - radius)) (0, 0)

/-- An all-black scene frame: every pixel has channel value 0. -/
def blackScreen (w h : ℤ) : Surface :=
  ⟨w, h, fun _ => some 0⟩

/-- objects.py line 185: `self.cell_size = 16 * 2`. -/
def DarkOverlay.cellSize : ℕ :=
  16 * 2

/-- objects.py line 186, the fog-memory grid built by `DarkOverlay.__init__`:
`[[0 * random.random() for _ in range(SCREEN.w // self.cell_size)] for _ in
range(SCREEN.h // self.cell_size)]`, parametrised by the screen size `(w, h)`
and by the stream `rand` of `random.random()` draws. -/
def DarkOverlay.mkGrid (w h : ℕ) (rand : ℕ → ℕ → ℚ) : List (List ℚ) :=
  (List.range (h / DarkOverlay.cellSize)).map fun row =>
    (List.range (w / DarkOverlay.cellSize)).map fun col => 0 * rand row col

/- ------------------------------------------------------------------ -/
/- Helper lemmas.                                                      -/
/- ------------------------------------------------------------------ -/

lemma map_const_eq_replicate {α : Type} (c : α) :
    ∀ l : List ℕ, l.map (fun _ => c) = List.replicate l.length c := by
  intro l
  induction l with
  | nil => rfl
  | cons a l ih => simp [List.replicate_succ, ih]

lemma initSurf_eq_ringFold (radius : ℤ) :
    LightGlow.initSurf radius =
      ringFold (fun i => clamp ((i : ℤ) * 11) 0 255) (fun i => radius - (i : ℤ) * 5)
        (radius, radius) (Surface.blank (radius * 2) (radius * 2)) (List.range 25) := rfl

lemma glowSurf_eq_ringFold (radius glow : ℤ) :
    LightGlow.glowSurf radius glow =
      ringFold (fun i => clamp ((i : ℤ) * glow) 0 255) (fun i => radius - (i : ℤ) * 3)
        (radius, radius) (Surface.blank (radius * 2) (radius * 2)) (List.range 25) := rfl

lemma ringFold_wh (colF radF : ℕ → ℤ) (c : ℤ × ℤ) :
    ∀ (l : List ℕ) (s : Surface),
      (ringFold colF radF c s l).w = s.w ∧ (ringFold colF radF c s l).h = s.h := by
  intro l
  induction l with
  | nil => intro s; exact ⟨rfl, rfl⟩
  | cons a l ih =>
    intro s
    exact ih (drawCircle s (colF a) c (radF a))

lemma ringFold_range_px (colF radF : ℕ → ℤ) (c : ℤ × ℤ) (s : Surface) (p : ℤ × ℤ) :
    ∀ (n : ℕ) (i : ℕ), i < n → covers s.w s.h c (radF i) p →
      (∀ j : ℕ, i < j → j < n → ¬ covers s.w s.h c (radF j) p) →
      (ringFold colF radF c s (List.range n)).px p = some (colF i) := by
  intro n
  induction n with
  | zero =>
    intro i hi _ _
    exact absurd hi (Nat.not_lt_zero i)
  | succ n ih =>
    intro i hi hcov hinner
    have hfold : ringFold colF radF c s (List.range (n + 1)) =
        drawCircle (ringFold colF radF c s (List.range n)) (colF n) c (radF n) := by
      rw [ringFold, List.range_succ, List.foldl_append]
      rfl
    have hw := (ringFold_wh colF radF c (List.range n) s).1
    have hh := (ringFold_wh colF radF c (List.range n) s).2
    rw [hfold]
    rcases Nat.lt_succ_iff_lt_or_eq.mp hi with hlt | heq
    · have hn2 : ¬ covers (ringFold colF radF c s (List.range n)).w
          (ringFold colF radF c s (List.range n)).h c (radF n) p := by
        rw [hw, hh]
        exact hinner n hlt (Nat.lt_succ_self n)
      have hd : (drawCircle (ringFold colF radF c s (List.range n)) (colF n) c (radF n)).px p
          = (ringFold colF radF c s (List.range n)).px p := if_neg hn2
      rw [hd]
      exact ih i hlt hcov (fun j h1 h2 => hinner j h1 (Nat.lt_succ_of_lt h2))
    · subst heq
      have hc2 : covers (ringFold colF radF c s (List.range i)).w
          (ringFold colF radF c s (List.range i)).h c (radF i) p := by
        rw [hw, hh]
        exact hcov
      exact if_pos hc2

lemma glowSurf_w (radius glow : ℤ) : (LightGlow.glowSurf radius glow).w = radius * 2 := by
  rw [glowSurf_eq_ringFold]
  exact (ringFold_wh _ _ _ _ _).1

lemma glowSurf_h (radius glow : ℤ) : (LightGlow.glowSurf radius glow).h = radius * 2 := by
  rw [glowSurf_eq_ringFold]
  exact (ringFold_wh _ _ _ _ _).2

lemma updateGlow_radius_iterate :
    ∀ (n : ℕ) (s : LightGlowState), (LightGlow.updateGlow^[n] s).radius = s.radius := by
  intro n
  induction n with
  | zero => intro s; rfl
  | succ n ih =>
    intro s
    rw [Function.iterate_succ_apply]
    exact ih (LightGlow.updateGlow s)

lemma updateGlow_glow_of_255 :
    ∀ (n : ℕ) (s : LightGlowState), s.glow = 255 →
      (LightGlow.updateGlow^[n] s).glow = 255 := by
  intro n
  induction n with
  | zero => intro s hs; simpa using hs
  | succ n ih =>
    intro s hs
    rw [Function.iterate_succ_apply]
    refine ih (LightGlow.updateGlow s) ?_
    show clamp (s.glow + 1) 0 255 = 255
    rw [hs]
    norm_num [clamp]

lemma clamp_le_ge {v : ℚ} : 25 ≤ clamp v 25 255 := by
  unfold clamp
  exact le_min (le_max_right _ _) (by norm_num)

lemma decayStep_ge {v : ℚ} (h : 0 < v) : 25 ≤ decayStep v := by
  unfold decayStep
  rw [if_pos h]
  exact clamp_le_ge

lemma cellUpdate_fst_ge {glow radius : ℤ} {center pos : ℚ × ℚ} {v : ℚ}
    (h : 0 < v) : 25 ≤ (cellUpdate glow radius center pos v).1 := by
  by_cases hc : distSq center pos < (radius : ℚ) ^ 2
  · norm_num [cellUpdate, hc]
  · have h1 := decayStep_ge h
    simpa [cellUpdate, hc] using h1

lemma gridCellRun_ge {glow radius : ℤ} {center : ℚ × ℚ} (ps : List (ℚ × ℚ))
    {v : ℚ} (hv : 25 ≤ v) : 25 ≤ gridCellRun glow radius center ps v := by
  induction ps generalizing v with
  | nil => exact hv
  | cons p ps ih =>
    have h0 : (0 : ℚ) < v := lt_of_lt_of_le (by norm_num) hv
    exact ih (cellUpdate_fst_ge h0)

/- ------------------------------------------------------------------ -/
/- Claims about the fog cell update.                                   -/
/- ------------------------------------------------------------------ -/

/-- Claim C1, counterexample: with glow counter 12 and a cell centre lying on
the light position, the persisted cell brightness after the update is 55, not
the value `clamp (55 - (11 - 12) * 2) 0 255 = 57` that the claim prescribes. -/
theorem revealed_cell_offset_counterexample :
    (cellUpdate 12 125 ((16 : ℚ), 16) ((16 : ℚ), 16) 255).1 ≠
      ((clamp (55 - (11 - (12 : ℤ)) * 2) 0 255 : ℤ) : ℚ) := by
  have h1 : (cellUpdate 12 125 ((16 : ℚ), 16) ((16 : ℚ), 16) 255).1 = 55 := by
    norm_num [cellUpdate, distSq]
  have h2 : ((clamp (55 - (11 - (12 : ℤ)) * 2) 0 255 : ℤ) : ℚ) = 57 := by
    norm_num [clamp]
  rw [h1, h2]
  norm_num

/-- Claim C1, amended: for every fog cell whose world-space centre is at
(squared) distance less than the light radius from the light position during
an update, the persisted cell brightness is the constant revealed level 55,
overriding any decay computed for that cell in the same call, while the
greyscale value drawn for the cell that frame is the revealed level 55 reduced
by the offset `(11 - glow) * 2` and clamped to [0,255]. -/
theorem revealed_cell_brightness (glow radius : ℤ) (center pos : ℚ × ℚ) (v : ℚ)
    (hlit : distSq center pos < (radius : ℚ) ^ 2) :
    (cellUpdate glow radius center pos v).1 = 55 ∧
      (cellUpdate glow radius center pos v).2 = clamp (55 - (11 - glow) * 2) 0 255 := by
  constructor <;> simp [cellUpdate, hlit]

/-- Claim C1, witness for `revealed_cell_brightness` at glow 12, radius 125,
a cell centre equal to the light position, starting brightness 255. -/
theorem revealed_cell_brightness_witness :
    (cellUpdate 12 125 ((16 : ℚ), 16) ((16 : ℚ), 16) 255).1 = 55 ∧
      (cellUpdate 12 125 ((16 : ℚ), 16) ((16 : ℚ), 16) 255).2 =
        clamp (55 - (11 - 12) * 2) 0 255 :=
  revealed_cell_brightness 12 125 ((16 : ℚ), 16) ((16 : ℚ), 16) 255
    (by norm_num [distSq])

/-- Claim C2: once a fog cell's brightness is strictly positive, it never
falls below the floor value 25 in any subsequent update, whatever the light
positions during those updates (inside or outside the light radius). -/
theorem fog_floor_after_lit (glow radius : ℤ) (center pos : ℚ × ℚ)
    (ps : List (ℚ × ℚ)) (v : ℚ) (h : 0 < v) :
    25 ≤ gridCellRun glow radius center (pos :: ps) v := by
  have h1 : 25 ≤ (cellUpdate glow radius center pos v).1 := cellUpdate_fst_ge h
  exact gridCellRun_ge ps h1

/-- Claim C2, witness for `fog_floor_after_lit`: starting brightness 1/2,
one update with the light on the cell and one with the light far away. -/
theorem fog_floor_after_lit_witness :
    25 ≤ gridCellRun 12 125 ((16 : ℚ), 16)
      [((16 : ℚ), 16), ((2000 : ℚ), 2000)] (1 / 2) :=
  fog_floor_after_lit 12 125 ((16 : ℚ), 16) ((16 : ℚ), 16)
    [((2000 : ℚ), 2000)] (1 / 2) (by norm_num)

/-- Claim C10: for a cell inside the light radius during an update, the
brightness value stored in the fog grid is exactly the constant 55,
independent of the glow animation counter; the glow-derived offset
`(11 - glow) * 2` only affects the greyscale value drawn that frame. -/
theorem revealed_cell_persists_constant (glow radius : ℤ) (center pos : ℚ × ℚ)
    (v : ℚ) (hlit : distSq center pos < (radius : ℚ) ^ 2) :
    (∀ g : ℤ, ∀ w : ℚ, (cellUpdate g radius center pos w).1 = 55) ∧
      (cellUpdate glow radius center pos v).2 = clamp (55 - (11 - glow) * 2) 0 255 := by
  refine ⟨fun g w => ?_, ?_⟩ <;> simp [cellUpdate, hlit]

/-- Claim C10, witness for `revealed_cell_persists_constant` at glow 13,
radius 125, the light sitting on the cell centre. -/
theorem revealed_cell_persists_constant_witness :
    (cellUpdate 200 125 ((48 : ℚ), 48) ((50 : ℚ), 50) 30).1 = 55 ∧
      (cellUpdate 13 125 ((48 : ℚ), 48) ((50 : ℚ), 50) 30).2 =
        clamp (55 - (11 - 13) * 2) 0 255 :=
  ⟨(revealed_cell_persists_constant 13 125 ((48 : ℚ), 48) ((50 : ℚ), 50) 30
      (by norm_num [distSq])).1 200 30,
   (revealed_cell_persists_constant 13 125 ((48 : ℚ), 48) ((50 : ℚ), 50) 30
      (by norm_num [distSq])).2⟩

/- ------------------------------------------------------------------ -/
/- Decay dynamics: closed form of repeated far-from-light updates.     -/
/- ------------------------------------------------------------------ -/

lemma decayStep_of_ge {v : ℚ} (h1 : 25 ≤ v) (h2 : v ≤ 255) :
    decayStep v = max (v - 1 / 10) 25 := by
  unfold decayStep clamp
  rw [if_pos (by linarith : (0 : ℚ) < v)]
  exact min_eq_left (max_le (by linarith) (by norm_num))

lemma decayStep_iterate_closed (v : ℚ) (h1 : 25 ≤ v) (h2 : v ≤ 255) :
    ∀ n : ℕ, decayStep^[n] v = max (v - n / 10) 25 := by
  intro n
  induction n with
  | zero =>
    simp only [Function.iterate_zero, id_eq, Nat.cast_zero, zero_div, sub_zero]
    exact (max_eq_left h1).symm
  | succ n ih =>
    rw [Function.iterate_succ_apply', ih]
    rcases le_total (v - n / 10) 25 with h | h
    · rw [max_eq_right h]
      have h25 : decayStep 25 = 25 := by norm_num [decayStep, clamp]
      rw [h25, eq_comm, max_eq_right]
      push_cast
      linarith
    · have hn0 : (0 : ℚ) ≤ (n : ℚ) / 10 := by positivity
      rw [max_eq_left h, decayStep_of_ge (by linarith) (by linarith)]
      have he : v - n / 10 - 1 / 10 = v - (n + 1 : ℕ) / 10 := by push_cast; ring
      rw [he]

lemma cellUpdate_far (glow radius : ℤ) (center pos : ℚ × ℚ)
    (hfar : ¬ distSq center pos < (radius : ℚ) ^ 2) :
    (fun w => (cellUpdate glow radius center pos w).1) = decayStep :=
  funext fun w => by simp [cellUpdate, hfar]

/-- Claim C3: for a fog cell outside the light radius with brightness strictly
greater than 25 (and within the data-model range, at most 255), repeated
updates with the light held stationary and far away produce a non-increasing
brightness sequence, and from update `⌈10·(v−25)⌉` onward the brightness is
exactly 25 and stays there. -/
theorem fog_decay_monotone_converges (glow radius : ℤ) (center pos : ℚ × ℚ)
    (v : ℚ) (hfar : ¬ distSq center pos < (radius : ℚ) ^ 2)
    (h1 : 25 < v) (h2 : v ≤ 255) :
    (∀ n : ℕ,
        (fun w => (cellUpdate glow radius center pos w).1)^[n + 1] v ≤
          (fun w => (cellUpdate glow radius center pos w).1)^[n] v) ∧
      (∀ n : ℕ, 10 * (v - 25) ≤ (n : ℚ) →
        (fun w => (cellUpdate glow radius center pos w).1)^[n] v = 25) := by
  rw [cellUpdate_far glow radius center pos hfar]
  constructor
  · intro n
    rw [decayStep_iterate_closed v h1.le h2, decayStep_iterate_closed v h1.le h2]
    refine max_le_max ?_ le_rfl
    push_cast
    linarith
  · intro n hn
    rw [decayStep_iterate_closed v h1.le h2]
    apply max_eq_right
    linarith

/-- Claim C3, witness for `fog_decay_monotone_converges`: starting brightness
255 with the light far away, one decay step does not increase the brightness
and update 2300 yields exactly 25. -/
theorem fog_decay_monotone_converges_witness :
    ((fun w => (cellUpdate 12 125 ((16 : ℚ), 16) ((2000 : ℚ), 2000) w).1)^[1] 255 ≤
        (fun w => (cellUpdate 12 125 ((16 : ℚ), 16) ((2000 : ℚ), 2000) w).1)^[0] 255) ∧
      (fun w => (cellUpdate 12 125 ((16 : ℚ), 16) ((2000 : ℚ), 2000) w).1)^[2300] 255 = 25 :=
  ⟨(fog_decay_monotone_converges 12 125 ((16 : ℚ), 16) ((2000 : ℚ), 2000) 255
      (by norm_num [distSq]) (by norm_num) (by norm_num)).1 0,
   (fog_decay_monotone_converges 12 125 ((16 : ℚ), 16) ((2000 : ℚ), 2000) 255
      (by norm_num [distSq]) (by norm_num) (by norm_num)).2 2300 (by norm_num)⟩

/-- Claim C4, counterexample: a cell of starting brightness 255 kept outside
the light radius for 500 consecutive updates has brightness 205 after them
(decay removes only 0.1 per update), not 25. -/
theorem fog_500_updates_counterexample :
    (fun w => (cellUpdate 12 125 ((16 : ℚ), 16) ((2000 : ℚ), 2000) w).1)^[500] 255 = 205 ∧
      (205 : ℚ) ≠ 25 := by
  constructor
  · rw [cellUpdate_far 12 125 ((16 : ℚ), 16) ((2000 : ℚ), 2000) (by norm_num [distSq])]
    rw [decayStep_iterate_closed 255 (by norm_num) (by norm_num)]
    norm_num
  · norm_num

/-- Claim C4, amended: a fog cell with starting brightness 255 that is never
inside the light radius reaches brightness exactly 25 after 2300 consecutive
updates (decay is 0.1 per update, floored at 25), and its brightness remains
25 for all subsequent updates. -/
theorem fog_2300_updates_reach_floor (glow radius : ℤ) (center pos : ℚ × ℚ)
    (hfar : ¬ distSq center pos < (radius : ℚ) ^ 2) :
    ∀ n : ℕ, 2300 ≤ n →
      (fun w => (cellUpdate glow radius center pos w).1)^[n] 255 = 25 := by
  intro n hn
  rw [cellUpdate_far glow radius center pos hfar]
  rw [decayStep_iterate_closed 255 (by norm_num) (by norm_num)]
  apply max_eq_right
  have hq : (2300 : ℚ) ≤ (n : ℚ) := by exact_mod_cast hn
  linarith

/-- Claim C4, witness for `fog_2300_updates_reach_floor`: the concrete cell at
centre (16,16) with the light at (2000,2000), evaluated at update 2300. -/
theorem fog_2300_updates_reach_floor_witness :
    (fun w => (cellUpdate 12 125 ((16 : ℚ), 16) ((2000 : ℚ), 2000) w).1)^[2300] 255 = 25 :=
  fog_2300_updates_reach_floor 12 125 ((16 : ℚ), 16) ((2000 : ℚ), 2000)
    (by norm_num [distSq]) 2300 le_rfl

/- ------------------------------------------------------------------ -/
/- Claims about the glow mask generator.                               -/
/- ------------------------------------------------------------------ -/

/-- Claim C6: both glow masks are built from exactly 25 concentric rings,
ring `i` (0-indexed from outer to inner) having radius `radius − i·ringStep`
and fill brightness `clamp (i·intensity) 0 255`, each ring painted over the
previous ones, so that a pixel covered by ring `i` and by no later (inner)
ring shows exactly ring `i`'s brightness; the mask built by the constructor
loop uses ring step 5 and intensity 11, the mask regenerated by
`update_glow` uses ring step 3. -/
theorem glow_mask_ring_structure (radius glow : ℤ) (p : ℤ × ℤ) (i : ℕ) (hi : i < 25) :
    (covers (radius * 2) (radius * 2) (radius, radius) (radius - (i : ℤ) * 5) p →
      (∀ j : ℕ, i < j → j < 25 →
        ¬ covers (radius * 2) (radius * 2) (radius, radius) (radius - (j : ℤ) * 5) p) →
      (LightGlow.initSurf radius).px p = some (clamp ((i : ℤ) * 11) 0 255)) ∧
    (covers (radius * 2) (radius * 2) (radius, radius) (radius - (i : ℤ) * 3) p →
      (∀ j : ℕ, i < j → j < 25 →
        ¬ covers (radius * 2) (radius * 2) (radius, radius) (radius - (j : ℤ) * 3) p) →
      (LightGlow.glowSurf radius glow).px p = some (clamp ((i : ℤ) * glow) 0 255)) := by
  constructor
  · intro hcov hinner
    rw [initSurf_eq_ringFold]
    exact ringFold_range_px _ _ _ _ p 25 i hi hcov hinner
  · intro hcov hinner
    rw [glowSurf_eq_ringFold]
    exact ringFold_range_px _ _ _ _ p 25 i hi hcov hinner

/-- Claim C6, witness for `glow_mask_ring_structure`: the centre pixel
(125, 125) of the radius-125 masks lies in the innermost ring `i = 24` of
both masks (radii 5 and 53), so it shows `clamp (24·11) 0 255 = 255` on the
constructor mask and `clamp (24·12) 0 255 = 255` on the glow-12 mask. -/
theorem glow_mask_ring_structure_witness :
    (LightGlow.initSurf 125).px (125, 125) = some (clamp ((24 : ℤ) * 11) 0 255) ∧
      (LightGlow.glowSurf 125 12).px (125, 125) = some (clamp ((24 : ℤ) * 12) 0 255) :=
  ⟨(glow_mask_ring_structure 125 12 (125, 125) 24 (by norm_num)).1 (by decide)
      (fun j h1 h2 => absurd h2 (by omega)),
   (glow_mask_ring_structure 125 12 (125, 125) 24 (by norm_num)).2 (by decide)
      (fun j h1 h2 => absurd h2 (by omega))⟩

/-- Claim C7: every `update_glow` call increments the glow counter by 1 and
clamps it to [0, 255], regenerates the mask from the new counter, and once
the counter is 255 it stays 255 under every number of further calls. -/
theorem glow_advance (s : LightGlowState) :
    (LightGlow.updateGlow s).glow = clamp (s.glow + 1) 0 255 ∧
      (LightGlow.updateGlow s).surf = LightGlow.glowSurf s.radius (clamp (s.glow + 1) 0 255) ∧
      (s.glow = 255 → ∀ n : ℕ, (LightGlow.updateGlow^[n] s).glow = 255) :=
  ⟨rfl, rfl, fun hs n => updateGlow_glow_of_255 n s hs⟩

/-- Claim C7, witness for `glow_advance` at a state with glow counter 255:
three further calls leave the counter at 255. -/
theorem glow_advance_witness :
    (LightGlow.updateGlow ⟨125, 255, Surface.blank 250 250⟩).glow = clamp (255 + 1) 0 255 ∧
      (LightGlow.updateGlow ⟨125, 255, Surface.blank 250 250⟩).surf =
        LightGlow.glowSurf 125 (clamp (255 + 1) 0 255) ∧
      (LightGlow.updateGlow^[3] (⟨125, 255, Surface.blank 250 250⟩ : LightGlowState)).glow = 255 :=
  ⟨(glow_advance ⟨125, 255, Surface.blank 250 250⟩).1,
   (glow_advance ⟨125, 255, Surface.blank 250 250⟩).2.1,
   (glow_advance ⟨125, 255, Surface.blank 250 250⟩).2.2 rfl 3⟩

/-- Claim C8: for every radius and every glow counter, the constructor mask,
the regenerated mask, and the mask held after construction all have size
`2·radius × 2·radius`; the radius of a `LightGlow` never changes under
`update_glow`, and after any positive number of `update_glow` calls the held
mask still has size `2·radius × 2·radius`. -/
theorem glow_mask_dimensions (radius glow : ℤ) (s : LightGlowState) (n : ℕ) :
    (LightGlow.initSurf radius).w = radius * 2 ∧
      (LightGlow.initSurf radius).h = radius * 2 ∧
      (LightGlow.glowSurf radius glow).w = radius * 2 ∧
      (LightGlow.glowSurf radius glow).h = radius * 2 ∧
      (LightGlow.init radius).surf.w = radius * 2 ∧
      (LightGlow.init radius).surf.h = radius * 2 ∧
      (LightGlow.updateGlow^[n] s).radius = s.radius ∧
      (LightGlow.updateGlow^[n + 1] s).surf.w = s.radius * 2 ∧
      (LightGlow.updateGlow^[n + 1] s).surf.h = s.radius * 2 := by
  have hsurf : ∀ t : LightGlowState,
      (LightGlow.updateGlow t).surf = LightGlow.glowSurf t.radius (clamp (t.glow + 1) 0 255) :=
    fun t => rfl
  refine ⟨?_, ?_, glowSurf_w radius glow, glowSurf_h radius glow, ?_, ?_,
    updateGlow_radius_iterate n s, ?_, ?_⟩
  · rw [initSurf_eq_ringFold]
    exact (ringFold_wh _ _ _ _ _).1
  · rw [initSurf_eq_ringFold]
    exact (ringFold_wh _ _ _ _ _).2
  · exact glowSurf_w _ _
  · exact glowSurf_h _ _
  · rw [Function.iterate_succ_apply', hsurf, glowSurf_w, updateGlow_radius_iterate]
  · rw [Function.iterate_succ_apply', hsurf, glowSurf_h, updateGlow_radius_iterate]

/- ------------------------------------------------------------------ -/
/- Claims about compositing and the grid shape.                        -/
/- ------------------------------------------------------------------ -/

/-- Claim C9: the composite of `DarkOverlay.draw` first max-blends the glow
onto the darkness layer per channel and then multiplies that layer onto the
scene per channel; multiplying a channel by full brightness 255 is the
identity; and compositing an all-black scene frame with any darkness layer
(in particular the one drawn from an all-255 fog grid) and any glow mask
leaves the scene frame unchanged. -/
theorem composite_black_scene_identity :
    (∀ (w h : ℤ) (darkness glowS : Surface) (radius : ℤ) (pos p : ℤ × ℤ),
        (DarkOverlay.composite (blackScreen w h) darkness glowS radius pos).px p =
          (blackScreen w h).px p) ∧
      (∀ d : ℤ, multChan d 255 = d) ∧
      (∀ (screen darkness glowS : Surface) (radius : ℤ) (pos : ℤ × ℤ),
        DarkOverlay.composite screen darkness glowS radius pos =
          blitMult screen (blitMax darkness glowS (pos.1 - radius, pos.2 - radius)) (0, 0)) := by
  refine ⟨?_, ?_, fun _ _ _ _ _ => rfl⟩
  · intro w h darkness glowS radius pos p
    simp [DarkOverlay.composite, blitMult, blackScreen, multChan]
  · intro d
    unfold multChan
    exact Int.mul_ediv_cancel d (by norm_num)

/-- Claim C5, counterexample: on a 33 × 64 screen the fog grid has 2 rows of
1 cell each (floor division 33 // 32 = 1), not the `ceil(33/32) = 2` columns
the claim prescribes. -/
theorem grid_dims_counterexample :
    (DarkOverlay.mkGrid 33 64 fun _ _ => 1 / 2).map List.length ≠
      List.replicate ((64 + DarkOverlay.cellSize - 1) / DarkOverlay.cellSize)
        ((33 + DarkOverlay.cellSize - 1) / DarkOverlay.cellSize) := by
  decide

/-- Claim C5, amended: the fog memory grid has `h / 32` rows of `w / 32`
cells each (floor division of the screen size by the cell size), the cell
size being 32. -/
theorem grid_dims (w h : ℕ) (rand : ℕ → ℕ → ℚ) :
    (DarkOverlay.mkGrid w h rand).length = h / DarkOverlay.cellSize ∧
      (DarkOverlay.mkGrid w h rand).map List.length =
        List.replicate (h / DarkOverlay.cellSize) (w / DarkOverlay.cellSize) ∧
      DarkOverlay.cellSize = 32 := by
  refine ⟨?_, ?_, rfl⟩
  · simp [DarkOverlay.mkGrid]
  · unfold DarkOverlay.mkGrid
    rw [List.map_map]
    have h1 : (List.length ∘ fun row : ℕ =>
        (List.range (w / DarkOverlay.cellSize)).map fun col => 0 * rand row col) =
        fun _ : ℕ => w / DarkOverlay.cellSize := by
      funext row
      simp
    rw [h1, map_const_eq_replicate, List.length_range]

end FogOfWar
